import Mathlib

/-
Verification of the UniRig-Interface backend's job/session lifecycle,
concurrency-control, upload-security and eviction subsystem.

Shallow embedding of the Python sources under
src/unirig-ui/backend/app/ (job_service.py, jobs.py, upload.py,
file_service.py, rate_limiter.py, cleanup_service.py, skeleton_task.py).
Timestamps are modelled as integers, progress values as rationals, the
jobs table as a list of records (queries return the first match, as
SQLAlchemy first does), and the filesystem as a list of paths.
-/

namespace UniRig

/-- Decidable equality for Except values, used to evaluate the embedded
operations on concrete inputs. -/
instance {ε α : Type} [DecidableEq ε] [DecidableEq α] :
    DecidableEq (Except ε α) := fun a b =>
  match a, b with
  | .error x, .error y =>
    if h : x = y then isTrue (by rw [h])
    else isFalse (by intro hc; cases hc; exact h rfl)
  | .error _, .ok _ => isFalse (by intro hc; cases hc)
  | .ok _, .error _ => isFalse (by intro hc; cases hc)
  | .ok x, .ok y =>
    if h : x = y then isTrue (by rw [h])
    else isFalse (by intro hc; cases hc; exact h rfl)

/-- Job status enumeration (app/models/job.py, JobStatus). -/
inductive JobStatus where
  | uploaded
  | queued
  | processing
  | completed
  | failed
deriving DecidableEq, Repr

/-- Job processing stage enumeration (app/models/job.py, JobStage). -/
inductive JobStage where
  | upload
  | skeleton
  | skinning
  | merge
deriving DecidableEq, Repr

/-- One row of the jobs table (app/db/models.py, Job).  The three result
file columns are stored flat on the row, as in the SQLAlchemy model; the
Pydantic layer merely regroups them into a JobResults record. -/
structure JobRec where
  job_id : String
  session_id : String
  filename : String
  file_size : Nat
  file_path : String
  status : JobStatus
  progress : ℚ
  stage : Option JobStage
  created_at : Nat
  updated_at : Nat
  error_message : Option String
  skeleton_file : Option String
  skin_file : Option String
  final_file : Option String
deriving DecidableEq, Repr

/-- The optional keyword arguments of JobService.update_job
(app/services/job_service.py).  A none argument means the corresponding
field is left untouched. -/
structure JobUpdateArgs where
  status : Option JobStatus := none
  progress : Option ℚ := none
  stage : Option JobStage := none
  error_message : Option String := none
  skeleton_file : Option String := none
  skin_file : Option String := none
  final_file : Option String := none
deriving DecidableEq, Repr

/-- Errors surfaced by the job endpoints (app/utils/errors.py and the
HTTPException branches of app/api/jobs.py). -/
inductive ApiError where
  | notFound
  | concurrentJobLimit
  | skeletonMissing
deriving DecidableEq, Repr

/-- JobService.get_job: first row whose job_id matches, none when the
query comes back empty (the Python code then raises JobNotFoundError). -/
def getJob (db : List JobRec) (job_id : String) : Option JobRec :=
  db.find? (fun j => j.job_id == job_id)

/-- Field-by-field effect of JobService.update_job on the fetched row:
each field is overwritten only when the argument is provided, progress is
clamped to the unit interval on write, and updated_at is always refreshed
to the current time. -/
def applyUpdate (now : Nat) (u : JobUpdateArgs) (j : JobRec) : JobRec :=
  { j with
    status := u.status.getD j.status
    progress :=
      match u.progress with
      | some p => max 0 (min 1 p)
      | none => j.progress
    stage :=
      match u.stage with
      | some s => some s
      | none => j.stage
    error_message :=
      match u.error_message with
      | some m => some m
      | none => j.error_message
    skeleton_file :=
      match u.skeleton_file with
      | some f => some f
      | none => j.skeleton_file
    skin_file :=
      match u.skin_file with
      | some f => some f
      | none => j.skin_file
    final_file :=
      match u.final_file with
      | some f => some f
      | none => j.final_file
    updated_at := now }

/-- Rewrite the first row whose job_id matches, leaving every other row
untouched (the ORM mutates the single row returned by first and
commits). -/
def updateFirst (db : List JobRec) (job_id : String) (f : JobRec → JobRec) :
    List JobRec :=
  match db with
  | [] => []
  | j :: rest =>
    if j.job_id == job_id then f j :: rest
    else j :: updateFirst rest job_id f

/-- JobService.update_job: fetch the row, apply the provided fields, and
return the refreshed row together with the new table state; raises
JobNotFoundError (modelled as the error branch) when the row is absent. -/
def update_job (db : List JobRec) (job_id : String) (u : JobUpdateArgs)
    (now : Nat) : Except ApiError (List JobRec × JobRec) :=
  match getJob db job_id with
  | none => .error .notFound
  | some j =>
    .ok (updateFirst db job_id (applyUpdate now u), applyUpdate now u j)

/-- JobService.create_job: insert a fresh row in uploaded status with
zero progress and no stage. -/
def create_job (db : List JobRec) (job_id session_id filename : String)
    (file_size : Nat) (file_path : String) (now : Nat) :
    List JobRec × JobRec :=
  let j : JobRec :=
    { job_id := job_id
      session_id := session_id
      filename := filename
      file_size := file_size
      file_path := file_path
      status := .uploaded
      progress := 0
      stage := none
      created_at := now
      updated_at := now
      error_message := none
      skeleton_file := none
      skin_file := none
      final_file := none }
  (db ++ [j], j)

/-- Statuses counted as active by the concurrency gate
(JobService.get_active_jobs_for_session). -/
def isActiveStatus (s : JobStatus) : Bool :=
  s == .queued || s == .processing

/-- JobService.get_active_jobs_for_session: the session's rows whose
status is queued or processing. -/
def get_active_jobs_for_session (db : List JobRec) (session_id : String) :
    List JobRec :=
  db.filter (fun j => j.session_id == session_id && isActiveStatus j.status)

/-- Python truthiness test applied to an optional text column: None and
the empty string are both falsy (the skinning endpoint guards on
not job.results.skeleton_file). -/
def optStrFalsy (s : Option String) : Bool :=
  match s with
  | none => true
  | some v => v.isEmpty

/-- POST /jobs/(id)/skeleton (app/api/jobs.py, trigger_skeleton_generation):
404 when the job is unknown, 429 when the owning session already has an
active job, otherwise the job is set to queued with progress 0.  The
returned list is the table after the request (unchanged on error). -/
def trigger_skeleton_generation (db : List JobRec) (job_id : String)
    (now : Nat) : List JobRec × Except ApiError Unit :=
  match getJob db job_id with
  | none => (db, .error .notFound)
  | some job =>
    if 0 < (get_active_jobs_for_session db job.session_id).length then
      (db, .error .concurrentJobLimit)
    else
      match update_job db job_id { status := some .queued, progress := some 0 } now with
      | .ok (db2, _) => (db2, .ok ())
      | .error e => (db, .error e)

/-- POST /jobs/(id)/skinning (app/api/jobs.py, trigger_skinning_generation):
404 when the job is unknown, 400 when the skeleton artifact is not set
(checked before anything else is examined or written), 429 when the
session already has an active job, otherwise the job is set to queued
with progress 0. -/
def trigger_skinning_generation (db : List JobRec) (job_id : String)
    (now : Nat) : List JobRec × Except ApiError Unit :=
  match getJob db job_id with
  | none => (db, .error .notFound)
  | some job =>
    if optStrFalsy job.skeleton_file then
      (db, .error .skeletonMissing)
    else if 0 < (get_active_jobs_for_session db job.session_id).length then
      (db, .error .concurrentJobLimit)
    else
      match update_job db job_id { status := some .queued, progress := some 0 } now with
      | .ok (db2, _) => (db2, .ok ())
      | .error e => (db, .error e)

/-! Structural lemmas about updateFirst and getJob. -/

/-- Finding in a list whose prefix rejects the predicate lands on the
first accepting element. -/
theorem find?_append_first (p : JobRec → Bool) :
    ∀ (pre : List JobRec) (b : JobRec) (post : List JobRec),
      (∀ x ∈ pre, p x = false) → p b = true →
      List.find? p (pre ++ b :: post) = some b := by
  intro pre
  induction pre with
  | nil =>
    intro b post _ hb
    simp [List.find?, hb]
  | cons a rest ih =>
    intro b post hpre hb
    have ha : p a = false := hpre a (by simp)
    simp only [List.cons_append, List.find?]
    rw [ha]
    exact ih b post (fun x hx => hpre x (by simp [hx])) hb

/-- Splitting view of updateFirst at the first matching row: the table is
a prefix of non-matching rows, the matched row, and an untouched
suffix. -/
theorem updateFirst_split (f : JobRec → JobRec) :
    ∀ (db : List JobRec) (job_id : String) (j : JobRec),
      getJob db job_id = some j →
      ∃ pre post, db = pre ++ j :: post ∧
        updateFirst db job_id f = pre ++ f j :: post ∧
        ∀ x ∈ pre, (x.job_id == job_id) = false := by
  intro db
  induction db with
  | nil => intro job_id j h; simp [getJob] at h
  | cons a rest ih =>
    intro job_id j h
    by_cases ha : (a.job_id == job_id) = true
    · have hj : j = a := by
        simp only [getJob, List.find?, ha] at h
        exact (Option.some_injective _ h).symm
      subst hj
      exact ⟨[], rest, by simp, by simp [updateFirst, ha], by simp⟩
    · have ha' : (a.job_id == job_id) = false := by
        simpa using ha
      have hrest : getJob rest job_id = some j := by
        simpa [getJob, List.find?, ha'] using h
      obtain ⟨pre, post, hdb, hupd, hpre⟩ := ih job_id j hrest
      refine ⟨a :: pre, post, by simp [hdb], ?_, ?_⟩
      · simp [updateFirst, ha', hupd]
      · intro x hx
        rcases List.mem_cons.mp hx with hx | hx
        · simpa [hx] using ha'
        · exact hpre x hx

/-- After updateFirst, looking the job up again returns the rewritten
row, provided the rewrite preserves the identifier. -/
theorem getJob_updateFirst (db : List JobRec) (job_id : String)
    (f : JobRec → JobRec) (j : JobRec)
    (hf : (f j).job_id = j.job_id)
    (h : getJob db job_id = some j) :
    getJob (updateFirst db job_id f) job_id = some (f j) := by
  obtain ⟨pre, post, hdb, hupd, hpre⟩ := updateFirst_split f db job_id j h
  have hj : (j.job_id == job_id) = true := by
    have h2 : List.find? (fun x : JobRec => x.job_id == job_id) db = some j := by
      simpa [getJob] using h
    exact List.find?_some (p := fun x : JobRec => x.job_id == job_id)
      (a := j) (l := db) h2
  rw [hupd]
  unfold getJob
  exact find?_append_first _ pre (f j) post hpre (by simp [hf]; simpa using hj)

/-- Rows other than the first match survive updateFirst unchanged. -/
theorem mem_updateFirst_of_ne (db : List JobRec) (job_id : String)
    (f : JobRec → JobRec) (x : JobRec)
    (hx : x ∈ db) (hne : x.job_id ≠ job_id) :
    x ∈ updateFirst db job_id f := by
  induction db with
  | nil => simp at hx
  | cons a rest ih =>
    by_cases ha : (a.job_id == job_id) = true
    · rcases List.mem_cons.mp hx with hx | hx
      · exact absurd (by simpa using ha) (hx ▸ hne)
      · simp [updateFirst, ha, hx]
    · have ha' : (a.job_id == job_id) = false := by simpa using ha
      rcases List.mem_cons.mp hx with hx | hx
      · simp [updateFirst, ha', hx]
      · simp [updateFirst, ha']
        exact Or.inr (ih hx)

/-- Sample row used to instantiate witnesses on concrete inputs. -/
def sampleJob : JobRec :=
  { job_id := "j1"
    session_id := "s1"
    filename := "character.glb"
    file_size := 2458624
    file_path := "uploads/s1/u_character.glb"
    status := .uploaded
    progress := 0
    stage := none
    created_at := 0
    updated_at := 0
    error_message := none
    skeleton_file := none
    skin_file := none
    final_file := none }

/-- C2: for every existing job and every progress argument p, the stored
progress after JobService.update_job is max 0 (min 1 p), hence always in
the unit interval; in particular -10 stores 0 and 150 stores 1. -/
theorem update_job_clamps_progress (db : List JobRec) (job_id : String)
    (u : JobUpdateArgs) (p : ℚ) (now : Nat) (j : JobRec)
    (h : getJob db job_id = some j) (hp : u.progress = some p) :
    ∃ db2 j2, update_job db job_id u now = .ok (db2, j2) ∧
      getJob db2 job_id = some j2 ∧
      j2.progress = max 0 (min 1 p) ∧
      0 ≤ j2.progress ∧ j2.progress ≤ 1 ∧
      (p = -10 → j2.progress = 0) ∧
      (p = 150 → j2.progress = 1) := by
  refine ⟨updateFirst db job_id (applyUpdate now u), applyUpdate now u j,
    by simp [update_job, h], getJob_updateFirst db job_id _ j rfl h, ?_, ?_, ?_, ?_, ?_⟩
  · simp [applyUpdate, hp]
  · simp [applyUpdate, hp]
  · simp [applyUpdate, hp]
  · intro hval; subst hval; simp [applyUpdate, hp]
  · intro hval; subst hval; simp [applyUpdate, hp]

/-- Witness for C2 at a concrete table: writing -10 stores 0. -/
theorem update_job_clamps_progress_witness :
    ∃ db2 j2,
      update_job [sampleJob] "j1" { progress := some (-10) } 7 = .ok (db2, j2) ∧
      getJob db2 "j1" = some j2 ∧
      j2.progress = max 0 (min 1 (-10)) ∧
      0 ≤ j2.progress ∧ j2.progress ≤ 1 ∧
      ((-10 : ℚ) = -10 → j2.progress = 0) ∧
      ((-10 : ℚ) = 150 → j2.progress = 1) :=
  update_job_clamps_progress [sampleJob] "j1" { progress := some (-10) }
    (-10) 7 sampleJob (by decide) rfl

/-- C9: JobService.update_job rewrites only the fields whose argument is
provided, always refreshes updated_at to the call time, and leaves the
identity columns (job_id, session_id, filename, file_size, file_path,
created_at), every field whose argument is none, and every other row of
the table unchanged. -/
theorem update_job_frame_effect (db : List JobRec) (job_id : String)
    (u : JobUpdateArgs) (now : Nat) (j : JobRec)
    (h : getJob db job_id = some j) :
    ∃ db2, update_job db job_id u now = .ok (db2, applyUpdate now u j) ∧
      getJob db2 job_id = some (applyUpdate now u j) ∧
      (applyUpdate now u j).job_id = j.job_id ∧
      (applyUpdate now u j).session_id = j.session_id ∧
      (applyUpdate now u j).filename = j.filename ∧
      (applyUpdate now u j).file_size = j.file_size ∧
      (applyUpdate now u j).file_path = j.file_path ∧
      (applyUpdate now u j).created_at = j.created_at ∧
      (applyUpdate now u j).updated_at = now ∧
      (u.status = none → (applyUpdate now u j).status = j.status) ∧
      (u.progress = none → (applyUpdate now u j).progress = j.progress) ∧
      (u.stage = none → (applyUpdate now u j).stage = j.stage) ∧
      (u.error_message = none →
        (applyUpdate now u j).error_message = j.error_message) ∧
      (u.skeleton_file = none →
        (applyUpdate now u j).skeleton_file = j.skeleton_file) ∧
      (u.skin_file = none → (applyUpdate now u j).skin_file = j.skin_file) ∧
      (u.final_file = none → (applyUpdate now u j).final_file = j.final_file) ∧
      (∀ x ∈ db, x.job_id ≠ job_id → x ∈ db2) := by
  refine ⟨updateFirst db job_id (applyUpdate now u),
    by simp [update_job, h], getJob_updateFirst db job_id _ j rfl h,
    rfl, rfl, rfl, rfl, rfl, rfl, rfl, ?_, ?_, ?_, ?_, ?_, ?_, ?_, ?_⟩
  · intro h0; simp [applyUpdate, h0]
  · intro h0; simp [applyUpdate, h0]
  · intro h0; simp [applyUpdate, h0]
  · intro h0; simp [applyUpdate, h0]
  · intro h0; simp [applyUpdate, h0]
  · intro h0; simp [applyUpdate, h0]
  · intro h0; simp [applyUpdate, h0]
  · intro x hx hne
    exact mem_updateFirst_of_ne db job_id _ x hx hne

/-- Witness for C9 at a concrete table: an update supplying only a status
leaves every other field of the row as it was. -/
theorem update_job_frame_effect_witness :
    ∃ db2, update_job [sampleJob] "j1" { status := some .failed } 9 =
        .ok (db2, applyUpdate 9 { status := some JobStatus.failed } sampleJob) ∧
      (applyUpdate 9 { status := some JobStatus.failed } sampleJob).progress =
        sampleJob.progress := by
  obtain ⟨db2, h1, -, -, -, -, -, -, -, -, -, hprog, -⟩ :=
    update_job_frame_effect [sampleJob] "j1" { status := some .failed } 9
      sampleJob (by decide)
  exact ⟨db2, h1, hprog rfl⟩

/-- C3: requesting the skinning stage for a job whose skeleton artifact
is unset fails with the precondition error, whatever the job's status,
and the table (hence the job's status and progress) is unchanged: the
guard runs before any write. -/
theorem trigger_skinning_without_skeleton_rejected (db : List JobRec)
    (job_id : String) (now : Nat) (j : JobRec)
    (h : getJob db job_id = some j) (hskel : j.skeleton_file = none) :
    trigger_skinning_generation db job_id now = (db, .error .skeletonMissing) := by
  simp [trigger_skinning_generation, h, hskel, optStrFalsy]

/-- Witness for C3 at a concrete table: a completed job with no skeleton
artifact is rejected and the table is returned unchanged. -/
theorem trigger_skinning_without_skeleton_rejected_witness :
    trigger_skinning_generation [{ sampleJob with status := .completed }] "j1" 3 =
      ([{ sampleJob with status := .completed }], .error .skeletonMissing) :=
  trigger_skinning_without_skeleton_rejected
    [{ sampleJob with status := .completed }] "j1" 3
    { sampleJob with status := .completed } (by decide) rfl

/-! Rate limiter (app/middleware/rate_limiter.py). -/

/-- In-memory rate limiter state: the per-hour cap and the per-session
upload timestamp map (timestamps in seconds, the window is one hour =
3600 seconds). -/
structure RateLimiter where
  max_uploads : Nat
  upload_history : List (String × List Int)
deriving DecidableEq, Repr

/-- Dictionary read with the Python default of an empty list for an
unknown session. -/
def getHistory (h : List (String × List Int)) (sid : String) : List Int :=
  ((h.find? (fun e => e.1 == sid)).map Prod.snd).getD []

/-- Dictionary write: replace the session's entry, inserting it when
absent. -/
def setHistory (h : List (String × List Int)) (sid : String)
    (v : List Int) : List (String × List Int) :=
  match h with
  | [] => [(sid, v)]
  | e :: rest =>
    if e.1 == sid then (e.1, v) :: rest
    else e :: setHistory rest sid v

/-- RateLimiter.check_upload_rate: prune the session's timestamps to the
trailing hour (strictly newer than now - 3600), store the pruned list,
reject when the pruned count already meets the cap, otherwise record the
current time and admit.  The boolean is true exactly when the upload is
admitted (the Python code raises HTTP 429 RATE_LIMIT_EXCEEDED instead of
returning false). -/
def check_upload_rate (rl : RateLimiter) (session_id : String)
    (now : Int) : RateLimiter × Bool :=
  let pruned := (getHistory rl.upload_history session_id).filter
      (fun ts => now - 3600 < ts)
  let h1 := setHistory rl.upload_history session_id pruned
  if rl.max_uploads ≤ pruned.length then
    ({ rl with upload_history := h1 }, false)
  else
    ({ rl with upload_history := setHistory h1 session_id (pruned ++ [now]) },
      true)

/-- Reading back the entry just written returns exactly the written
list. -/
theorem getHistory_setHistory (h : List (String × List Int)) (sid : String)
    (v : List Int) : getHistory (setHistory h sid v) sid = v := by
  induction h with
  | nil => simp [setHistory, getHistory]
  | cons e rest ih =>
    by_cases he : (e.1 == sid) = true
    · simp [setHistory, he, getHistory, List.find?]
    · have he' : (e.1 == sid) = false := by simpa using he
      simpa [setHistory, he', getHistory, List.find?] using ih

/-- C6: with the cap of 10 uploads per hour, an attempt whose pruned
in-window history already holds 10 timestamps is rejected; a timestamp
recorded 61 minutes (3660 seconds) or more before the attempt is pruned
and never counts; an attempt with fewer than 10 in-window timestamps is
admitted and appends exactly the one new timestamp. -/
theorem check_upload_rate_sliding_window (rl : RateLimiter) (sid : String)
    (now : Int) (pruned : List Int)
    (hmax : rl.max_uploads = 10)
    (hpruned : pruned = (getHistory rl.upload_history sid).filter
      (fun ts => now - 3600 < ts)) :
    (10 ≤ pruned.length →
      check_upload_rate rl sid now =
        ({ rl with upload_history := setHistory rl.upload_history sid pruned },
          false)) ∧
    (∀ ts : Int, ts ≤ now - 3660 → ts ∉ pruned) ∧
    (pruned.length < 10 →
      (check_upload_rate rl sid now).2 = true ∧
      getHistory (check_upload_rate rl sid now).1.upload_history sid =
        pruned ++ [now]) := by
  refine ⟨?_, ?_, ?_⟩
  · intro hfull
    have : rl.max_uploads ≤ pruned.length := by omega
    simp [check_upload_rate, ← hpruned, this]
  · intro ts hts hmem
    rw [hpruned] at hmem
    have := (List.mem_filter.mp hmem).2
    simp at this
    omega
  · intro hroom
    have hlt : ¬ rl.max_uploads ≤ pruned.length := by omega
    constructor
    · simp [check_upload_rate, ← hpruned, hlt]
    · simp [check_upload_rate, ← hpruned, hlt, getHistory_setHistory]

/-- Rate limiter fixture for the witnesses: ten uploads recorded inside
the trailing hour before time 10000. -/
def rlW : RateLimiter :=
  { max_uploads := 10
    upload_history :=
      [("s", [6500, 6550, 6600, 6650, 6700, 6750, 6800, 6850, 6900, 6950])] }

/-- Witness for C6 at a concrete limiter: ten in-window uploads make the
eleventh attempt rejected. -/
theorem check_upload_rate_sliding_window_witness :
    ([6500, 6550, 6600, 6650, 6700, 6750, 6800, 6850, 6900, 6950] :
        List Int) =
      (getHistory rlW.upload_history "s").filter
        (fun ts => (10000 : Int) - 3600 < ts) ∧
    ((10 ≤ ([6500, 6550, 6600, 6650, 6700, 6750, 6800, 6850, 6900, 6950] :
        List Int).length →
      check_upload_rate rlW "s" 10000 =
        ({ rlW with upload_history := (setHistory rlW.upload_history "s"
            [6500, 6550, 6600, 6650, 6700, 6750, 6800, 6850, 6900, 6950]) },
          false)) ∧
    (∀ ts : Int, ts ≤ 10000 - 3660 →
      ts ∉ ([6500, 6550, 6600, 6650, 6700, 6750, 6800, 6850, 6900, 6950] :
        List Int)) ∧
    (([6500, 6550, 6600, 6650, 6700, 6750, 6800, 6850, 6900, 6950] :
        List Int).length < 10 →
      (check_upload_rate rlW "s" 10000).2 = true ∧
      getHistory (check_upload_rate rlW "s" 10000).1.upload_history "s" =
        [6500, 6550, 6600, 6650, 6700, 6750, 6800, 6850, 6900, 6950] ++
          [10000])) :=
  ⟨by decide, check_upload_rate_sliding_window rlW "s" 10000 _ rfl (by decide)⟩

/-- C10: a rejected attempt is not recorded: the limiter state after the
rejection holds exactly the pruned in-window history that existed before
the attempt, with no new timestamp appended. -/
theorem rejected_upload_not_recorded (rl : RateLimiter) (sid : String)
    (now : Int) (pruned : List Int)
    (hpruned : pruned = (getHistory rl.upload_history sid).filter
      (fun ts => now - 3600 < ts))
    (hreject : rl.max_uploads ≤ pruned.length) :
    check_upload_rate rl sid now =
      ({ rl with upload_history := setHistory rl.upload_history sid pruned },
        false) ∧
    getHistory (check_upload_rate rl sid now).1.upload_history sid = pruned := by
  constructor
  · simp [check_upload_rate, ← hpruned, hreject]
  · simp [check_upload_rate, ← hpruned, hreject, getHistory_setHistory]

/-- Witness for C10 at a concrete limiter: after the rejected eleventh
attempt the stored history is the same ten pruned timestamps. -/
theorem rejected_upload_not_recorded_witness :
    (check_upload_rate rlW "s" 10000 =
      ({ rlW with upload_history := (setHistory rlW.upload_history "s"
          [6500, 6550, 6600, 6650, 6700, 6750, 6800, 6850, 6900, 6950]) },
        false) ∧
    getHistory (check_upload_rate rlW "s" 10000).1.upload_history "s" =
      [6500, 6550, 6600, 6650, 6700, 6750, 6800, 6850, 6900, 6950]) :=
  rejected_upload_not_recorded rlW "s" 10000 _ rfl (by decide)

/-! System-level transition model for the concurrency gate (C1).  A state
is the jobs table plus the multiset of job ids with a pending dispatched
Celery task.  Transitions are the repository's operations that touch job
status: the upload endpoint (app/api/upload.py, which creates the job in
uploaded status and dispatches generate_skeleton with no concurrency
check), the two stage-trigger endpoints (app/api/jobs.py, which queue
only after the active-jobs check), the start of a dispatched task
(skeleton_task.py, which unconditionally sets processing), and task
completion or failure. -/

/-- Update written by generate_skeleton when a dispatched task starts
(skeleton_task.py: status processing, stage skeleton, progress 0.1). -/
def startUpdateArgs : JobUpdateArgs :=
  { status := some .processing, stage := some .skeleton,
    progress := some (1/10) }

/-- Whole-system state: jobs table plus pending dispatched tasks. -/
structure SysState where
  db : List JobRec
  dispatched : List String
deriving DecidableEq, Repr

/-- Number of queued-or-processing jobs a session owns. -/
def countActive (db : List JobRec) (session_id : String) : Nat :=
  (get_active_jobs_for_session db session_id).length

/-- One step of the system. -/
inductive Step : SysState → SysState → Prop where
  | upload (s : SysState) (job_id session_id filename : String)
      (file_size : Nat) (file_path : String) (now : Nat)
      (hfresh : getJob s.db job_id = none) :
      Step s ⟨(create_job s.db job_id session_id filename file_size
        file_path now).1, s.dispatched ++ [job_id]⟩
  | triggerSkeleton (s : SysState) (job_id : String) (now : Nat)
      (db2 : List JobRec)
      (h : trigger_skeleton_generation s.db job_id now = (db2, .ok ())) :
      Step s ⟨db2, s.dispatched ++ [job_id]⟩
  | triggerSkinning (s : SysState) (job_id : String) (now : Nat)
      (db2 : List JobRec)
      (h : trigger_skinning_generation s.db job_id now = (db2, .ok ())) :
      Step s ⟨db2, s.dispatched ++ [job_id]⟩
  | taskStart (s : SysState) (job_id : String) (now : Nat) (j : JobRec)
      (hdisp : job_id ∈ s.dispatched)
      (hjob : getJob s.db job_id = some j) :
      Step s ⟨updateFirst s.db job_id (applyUpdate now startUpdateArgs),
        s.dispatched.erase job_id⟩
  | taskComplete (s : SysState) (job_id : String) (now : Nat)
      (u : JobUpdateArgs) (j : JobRec)
      (hjob : getJob s.db job_id = some j)
      (hstatus : u.status = some .completed ∨ u.status = some .failed) :
      Step s ⟨updateFirst s.db job_id (applyUpdate now u), s.dispatched⟩

/-- States reachable from the empty system. -/
def Reachable (s : SysState) : Prop :=
  Relation.ReflTransGen Step ⟨[], []⟩ s

/-- Job record created by the first upload of the counterexample run. -/
def cexJob1 : JobRec :=
  (create_job [] "j1" "s" "a.glb" 1 "uploads/s/u1_a.glb" 0).2

/-- Job record created by the second upload of the counterexample run. -/
def cexJob2 : JobRec :=
  (create_job [] "j2" "s" "b.glb" 1 "uploads/s/u2_b.glb" 0).2

/-- Processing update applied when a dispatched skeleton task starts. -/
def cexStart : JobRec → JobRec :=
  applyUpdate 1 startUpdateArgs

/-- Counterexample for C1: upload a file for session s (the upload
endpoint dispatches skeleton generation with no concurrency check), let
the task start, upload a second file for the same session, and let its
task start: the reached state holds two processing jobs for session s,
so the per-session bound of one active job fails on a reachable state. -/
theorem concurrency_invariant_counterexample :
    Reachable ⟨[cexStart cexJob1, cexStart cexJob2], []⟩ ∧
    countActive [cexStart cexJob1, cexStart cexJob2] "s" = 2 := by
  constructor
  · have s0 : SysState := ⟨[], []⟩
    have h1 : Step ⟨[], []⟩ ⟨[cexJob1], ["j1"]⟩ := by
      have := Step.upload ⟨[], []⟩ "j1" "s" "a.glb" 1 "uploads/s/u1_a.glb" 0
        (by decide)
      simpa [create_job, cexJob1] using this
    have h2 : Step ⟨[cexJob1], ["j1"]⟩ ⟨[cexStart cexJob1], []⟩ := by
      have := Step.taskStart ⟨[cexJob1], ["j1"]⟩ "j1" 1 cexJob1
        (by decide) (by decide)
      simpa [updateFirst, cexStart, cexJob1, create_job] using this
    have h3 : Step ⟨[cexStart cexJob1], []⟩
        ⟨[cexStart cexJob1, cexJob2], ["j2"]⟩ := by
      have := Step.upload ⟨[cexStart cexJob1], []⟩ "j2" "s" "b.glb" 1
        "uploads/s/u2_b.glb" 0 (by decide)
      simpa [create_job, cexJob2] using this
    have h4 : Step ⟨[cexStart cexJob1, cexJob2], ["j2"]⟩
        ⟨[cexStart cexJob1, cexStart cexJob2], []⟩ := by
      have := Step.taskStart ⟨[cexStart cexJob1, cexJob2], ["j2"]⟩ "j2" 1
        cexJob2 (by decide) (by decide)
      simpa [updateFirst, cexStart, cexJob1, cexJob2, create_job] using this
    exact Relation.ReflTransGen.head h1 (Relation.ReflTransGen.head h2
      (Relation.ReflTransGen.head h3 (Relation.ReflTransGen.single h4)))
  · decide

/-- Per-session concurrency bound. -/
def ConcurrencyInvariant (db : List JobRec) : Prop :=
  ∀ session_id : String, countActive db session_id ≤ 1

/-- Active-job count distributes over list append. -/
theorem countActive_append (l1 l2 : List JobRec) (sid : String) :
    countActive (l1 ++ l2) sid = countActive l1 sid + countActive l2 sid := by
  simp [countActive, get_active_jobs_for_session, List.filter_append]

/-- Active-job count of a cons cell. -/
theorem countActive_cons (j : JobRec) (l : List JobRec) (sid : String) :
    countActive (j :: l) sid =
      (if j.session_id == sid && isActiveStatus j.status then 1 else 0) +
        countActive l sid := by
  by_cases h : (j.session_id == sid && isActiveStatus j.status) = true
  · simp [countActive, get_active_jobs_for_session, List.filter_cons, h]
    omega
  · have h' : (j.session_id == sid && isActiveStatus j.status) = false := by
      simpa using h
    simp [countActive, get_active_jobs_for_session, List.filter_cons, h']

/-- Rewriting one row of a table whose session currently has zero active
jobs keeps every session at no more than one active job. -/
theorem invariant_after_queue (db : List JobRec) (job_id : String)
    (now : Nat) (u : JobUpdateArgs) (j : JobRec)
    (hfind : getJob db job_id = some j)
    (hzero : countActive db j.session_id = 0)
    (hinv : ConcurrencyInvariant db) :
    ConcurrencyInvariant (updateFirst db job_id (applyUpdate now u)) := by
  obtain ⟨pre, post, hdb, hupd, -⟩ :=
    updateFirst_split (applyUpdate now u) db job_id j hfind
  intro sid
  rw [hupd, countActive_append, countActive_cons]
  have hsess : (applyUpdate now u j).session_id = j.session_id := rfl
  by_cases hs : j.session_id = sid
  · have h0 : countActive db sid = 0 := hs ▸ hzero
    rw [hdb, countActive_append, countActive_cons] at h0
    have hpre : countActive pre sid = 0 := by omega
    have hpost : countActive post sid = 0 := by omega
    rw [hpre, hpost]
    by_cases hb : ((applyUpdate now u j).session_id == sid &&
        isActiveStatus (applyUpdate now u j).status) = true
    · simp [hb]
    · have hb' : ((applyUpdate now u j).session_id == sid &&
          isActiveStatus (applyUpdate now u j).status) = false := by
        simpa using hb
      simp [hb']
  · have hb' : ((applyUpdate now u j).session_id == sid) = false := by
      rw [hsess]; simpa using hs
    have hjb : (j.session_id == sid) = false := by simpa using hs
    have hall := hinv sid
    rw [hdb, countActive_append, countActive_cons] at hall
    simp only [hb', Bool.false_and, if_false]
    simp only [hjb, Bool.false_and, if_false] at hall
    omega

/-- Case split on the skeleton endpoint: it either leaves the table
unchanged (unknown job or active-job conflict) or, when the owning
session has zero active jobs, rewrites the job to queued. -/
theorem trigger_skeleton_db_cases (db : List JobRec) (job_id : String)
    (now : Nat) :
    (trigger_skeleton_generation db job_id now).1 = db ∨
    ∃ j, getJob db job_id = some j ∧ countActive db j.session_id = 0 ∧
      (trigger_skeleton_generation db job_id now).1 =
        updateFirst db job_id (applyUpdate now
          { status := some .queued, progress := some 0 }) := by
  unfold trigger_skeleton_generation
  cases hg : getJob db job_id with
  | none => simp
  | some j =>
    by_cases hact : 0 < (get_active_jobs_for_session db j.session_id).length
    · simp [hact]
    · right
      refine ⟨j, rfl, ?_, ?_⟩
      · have : (get_active_jobs_for_session db j.session_id).length = 0 := by
          omega
        simpa [countActive] using this
      · simp [hact, update_job, hg]

/-- Case split on the skinning endpoint, as for the skeleton one (the
extra missing-skeleton branch also leaves the table unchanged). -/
theorem trigger_skinning_db_cases (db : List JobRec) (job_id : String)
    (now : Nat) :
    (trigger_skinning_generation db job_id now).1 = db ∨
    ∃ j, getJob db job_id = some j ∧ countActive db j.session_id = 0 ∧
      (trigger_skinning_generation db job_id now).1 =
        updateFirst db job_id (applyUpdate now
          { status := some .queued, progress := some 0 }) := by
  unfold trigger_skinning_generation
  cases hg : getJob db job_id with
  | none => simp
  | some j =>
    by_cases hskel : optStrFalsy j.skeleton_file = true
    · simp [hskel]
    · by_cases hact : 0 < (get_active_jobs_for_session db j.session_id).length
      · simp [hskel, hact]
      · right
        refine ⟨j, rfl, ?_, ?_⟩
        · have : (get_active_jobs_for_session db j.session_id).length = 0 := by
            omega
          simpa [countActive] using this
        · simp [hskel, hact, update_job, hg]

/-- Amended C1: the two stage-trigger endpoints preserve the per-session
bound of at most one queued-or-processing job: each queues a job only
when the owning session has zero active jobs, leaving every session with
at most one active job afterwards.  (The upload flow does not: it
dispatches skeleton processing without the gate, which is what the
counterexample exploits, so the bound fails on general reachable
states.) -/
theorem trigger_endpoints_preserve_concurrency_invariant
    (db db2 : List JobRec) (job_id : String) (now : Nat)
    (hinv : ConcurrencyInvariant db)
    (h : (trigger_skeleton_generation db job_id now).1 = db2 ∨
      (trigger_skinning_generation db job_id now).1 = db2) :
    ConcurrencyInvariant db2 := by
  rcases h with h | h
  · rcases trigger_skeleton_db_cases db job_id now with hc | ⟨j, hg, hz, hc⟩
    · rw [hc] at h; exact h ▸ hinv
    · rw [hc] at h
      exact h ▸ invariant_after_queue db job_id now _ j hg hz hinv
  · rcases trigger_skinning_db_cases db job_id now with hc | ⟨j, hg, hz, hc⟩
    · rw [hc] at h; exact h ▸ hinv
    · rw [hc] at h
      exact h ▸ invariant_after_queue db job_id now _ j hg hz hinv

/-- Witness for the amended C1 at a concrete table: triggering the
skeleton stage on a one-job table keeps every session at no more than
one active job. -/
theorem trigger_endpoints_preserve_concurrency_invariant_witness :
    ConcurrencyInvariant
      (trigger_skeleton_generation [sampleJob] "j1" 4).1 := by
  have hinv : ConcurrencyInvariant [sampleJob] := by
    intro sid
    rw [show ([sampleJob] : List JobRec) = sampleJob :: [] from rfl,
      countActive_cons]
    simp [sampleJob, isActiveStatus, countActive, get_active_jobs_for_session]
  exact trigger_endpoints_preserve_concurrency_invariant [sampleJob]
    (trigger_skeleton_generation [sampleJob] "j1" 4).1 "j1" 4 hinv
    (Or.inl rfl)

/-! Upload security gate (app/services/file_service.py and
app/utils/validation.py).  File contents are byte lists, the filesystem
is the list of stored paths, and the MIME sniffer (python-magic) is an
oracle parameter.  The chmod hardening step changes no disk contents and
is therefore not part of the disk state. -/

/-- Boolean infix test on lists (Python's in operator on bytes and
str). -/
def bListIsInfix {α : Type} [BEq α] (needle hay : List α) : Bool :=
  match hay with
  | [] => needle.isEmpty
  | _ :: t => needle.isPrefixOf hay || bListIsInfix needle t

/-- Characters after the last slash (os.path.basename / the final path
component used by pathlib). -/
def basenameChars (cs : List Char) : List Char :=
  cs.foldl (fun acc c => if c = '/' then [] else acc ++ [c]) []

/-- os.path.basename on strings. -/
def os_path_basename (p : String) : String :=
  String.mk (basenameChars p.toList)

/-- Index of the last dot of a name, when any. -/
def lastDotIndex (name : List Char) : Option Nat :=
  ((name.enum.filter (fun e => e.2 == '.')).getLast?).map Prod.fst

/-- validation.get_file_extension: the lower-cased pathlib suffix of the
filename (empty when the final component has no usable dot: none at all,
a leading dot, or a trailing dot). -/
def get_file_extension (filename : String) : String :=
  let name := basenameChars filename.toList
  match lastDotIndex name with
  | some i =>
    if 0 < i ∧ i < name.length - 1 then
      String.mk ((name.drop i).map Char.toLower)
    else ""
  | none => ""

/-- ALLOWED_EXTENSIONS from file_service.py. -/
def allowedExtensions : List String := [".obj", ".fbx", ".glb", ".vrm"]

/-- validation.is_valid_file_extension specialised to the service's
allow-list. -/
def is_valid_file_extension (filename : String) : Bool :=
  allowedExtensions.contains (get_file_extension filename)

/-- ALLOWED_MIME_TYPES from file_service.py. -/
def allowedMimeTypes : List String :=
  ["model/obj", "model/gltf-binary", "application/octet-stream",
    "model/vrm", "model/gltf+json"]

/-- Substring test on strings (Python's in operator). -/
def strContainsSub (hay needle : String) : Bool :=
  bListIsInfix needle.toList hay.toList

/-- FileService.validate_mime_type applied to the sniffed type: reject
executable or script categories, then reject types outside the
allow-list unless they fall under the generic application prefix. -/
def validate_mime_type (file_mime_type : String) : Except String Unit :=
  if strContainsSub file_mime_type "executable" ||
      strContainsSub file_mime_type "script" then
    .error "Executable files are not allowed"
  else if !(allowedMimeTypes.contains file_mime_type) &&
      !(file_mime_type.startsWith "application/") then
    .error "File type not allowed"
  else
    .ok ()

/-- The executable and script magic signatures scanned for by
FileService.scan_for_malicious_content: ELF, Windows PE, shebang, PHP
open tag, inline script tag (as byte strings). -/
def executableSignatures : List (List Nat) :=
  [[0x7f, 0x45, 0x4c, 0x46],
    [0x4d, 0x5a],
    [0x23, 0x21],
    [0x3c, 0x3f, 0x70, 0x68, 0x70],
    [0x3c, 0x73, 0x63, 0x72, 0x69, 0x70, 0x74]]

/-- FileService.scan_for_malicious_content: reject a stored path holding
a NUL character, then reject any of the known signatures occurring
anywhere in the first 4096 bytes of the content. -/
def scan_for_malicious_content (file_path : String) (content : List Nat) :
    Except String Unit :=
  if file_path.toList.contains (Char.ofNat 0) then
    .error "Null byte detected in filename"
  else
    let header := content.take 4096
    if executableSignatures.any (fun sig => bListIsInfix sig header) then
      .error "Executable signature detected"
    else
      .ok ()

/-- MAX_FILE_SIZE from file_service.py (100 MiB). -/
def MAX_FILE_SIZE : Nat := 100 * 1024 * 1024

/-- Stored path built by FileService.save_upload: the configured upload
root, the basename of the session id, and the uuid-prefixed basename of
the original filename. -/
def uploadFilePath (session_id filename uuidTok : String) : String :=
  "./uploads/" ++ os_path_basename session_id ++ "/" ++ uuidTok ++ "_" ++
    os_path_basename filename

/-- Errors raised by the upload pipeline (InvalidFormatError,
FileSizeExceededError, SecurityError in app/utils/errors.py). -/
inductive UploadError where
  | invalidFormat (ext : String)
  | sizeExceeded (size maxSize : Nat)
  | securityViolation (details : String)
deriving DecidableEq, Repr

/-- FileService.save_upload: validate the extension, build the isolated
path, stream the content to disk, enforce the size ceiling (deleting the
file on excess), then run the MIME check and the malicious-content scan
(deleting the file when either raises).  Returns the disk after the
call, the paths written during the call, and the result (stored path,
original filename, byte size). -/
def save_upload (sniff : List Nat → String) (disk : List String)
    (filename session_id : String) (content : List Nat) (uuidTok : String) :
    List String × List String × Except UploadError (String × String × Nat) :=
  if is_valid_file_extension filename = false then
    (disk, [], .error (.invalidFormat (get_file_extension filename)))
  else
    let file_path := uploadFilePath session_id filename uuidTok
    let disk1 := disk ++ [file_path]
    let file_size := content.length
    if MAX_FILE_SIZE < file_size then
      (disk1.erase file_path, [file_path],
        .error (.sizeExceeded file_size MAX_FILE_SIZE))
    else
      match validate_mime_type (sniff content) with
      | .error d =>
        (disk1.erase file_path, [file_path], .error (.securityViolation d))
      | .ok _ =>
        match scan_for_malicious_content file_path content with
        | .error d =>
          (disk1.erase file_path, [file_path], .error (.securityViolation d))
        | .ok _ => (disk1, [file_path], .ok (file_path, filename, file_size))

/-- Appending a fresh path and erasing it restores the original disk. -/
theorem erase_fresh_append (disk : List String) (fp : String)
    (h : fp ∉ disk) : (disk ++ [fp]).erase fp = disk := by
  rw [List.erase_append_right _ h]
  simp

/-- Content carrying one of the scanned signatures always makes the scan
raise. -/
theorem scan_errors_of_sig (fp : String) (content : List Nat)
    (hsig : executableSignatures.any
      (fun sig => bListIsInfix sig (content.take 4096)) = true) :
    ∃ d, scan_for_malicious_content fp content = .error d := by
  simp only [scan_for_malicious_content]
  by_cases hnul : (fp.toList.contains (Char.ofNat 0)) = true
  · rw [if_pos hnul]
    exact ⟨_, rfl⟩
  · rw [if_neg hnul, if_pos hsig]
    exact ⟨_, rfl⟩

/-- C4: an upload whose first 4096 bytes contain one of the
executable/script signatures fails with a SecurityViolation and leaves
the disk exactly as before the call; more generally, any failing upload
leaves no residual file on disk (given the uuid-prefixed path is fresh,
which is what the uuid prefix is for). -/
theorem save_upload_failure_leaves_no_residual :
    (∀ (sniff : List Nat → String) (disk : List String)
        (filename session_id uuidTok : String) (content : List Nat),
      uploadFilePath session_id filename uuidTok ∉ disk →
      is_valid_file_extension filename = true →
      content.length ≤ MAX_FILE_SIZE →
      executableSignatures.any
        (fun sig => bListIsInfix sig (content.take 4096)) = true →
      ∃ d, save_upload sniff disk filename session_id content uuidTok =
        (disk, [uploadFilePath session_id filename uuidTok],
          .error (.securityViolation d))) ∧
    (∀ (sniff : List Nat → String) (disk : List String)
        (filename session_id uuidTok : String) (content : List Nat)
        (e : UploadError),
      uploadFilePath session_id filename uuidTok ∉ disk →
      (save_upload sniff disk filename session_id content uuidTok).2.2 =
        .error e →
      (save_upload sniff disk filename session_id content uuidTok).1 = disk) := by
  constructor
  · intro sniff disk filename session_id uuidTok content hfresh hext hsize hsig
    have hext' : ¬ is_valid_file_extension filename = false := by
      simp [hext]
    have hsz : ¬ MAX_FILE_SIZE < content.length := not_lt.mpr hsize
    have herase := erase_fresh_append disk _ hfresh
    cases hm : validate_mime_type (sniff content) with
    | error d =>
      exact ⟨d, by simp [save_upload, hext', hsz, hm, herase]⟩
    | ok _ =>
      obtain ⟨d, hscan⟩ := scan_errors_of_sig
        (uploadFilePath session_id filename uuidTok) content hsig
      exact ⟨d, by simp [save_upload, hext', hsz, hm, hscan, herase]⟩
  · intro sniff disk filename session_id uuidTok content e hfresh herr
    have herase := erase_fresh_append disk _ hfresh
    by_cases hext : is_valid_file_extension filename = false
    · simp [save_upload, hext]
    · by_cases hsz : MAX_FILE_SIZE < content.length
      · simp [save_upload, hext, hsz, herase]
      · cases hm : validate_mime_type (sniff content) with
        | error d => simp [save_upload, hext, hsz, hm, herase]
        | ok _ =>
          cases hscan : scan_for_malicious_content
              (uploadFilePath session_id filename uuidTok) content with
          | error d => simp [save_upload, hext, hsz, hm, hscan, herase]
          | ok _ =>
            exfalso
            simp [save_upload, hext, hsz, hm, hscan] at herr

/-- Windows PE header bytes used in the repository's own security test. -/
def mzBytes : List Nat := [0x4d, 0x5a, 0x90, 0x00]

/-- Witness for C4 at a concrete upload: a file starting with the MZ
signature is rejected as a SecurityViolation and the empty disk stays
empty. -/
theorem save_upload_failure_leaves_no_residual_witness :
    ∃ d, save_upload (fun _ => "application/octet-stream") []
        "malware.glb" "s1" mzBytes "u1" =
      ([], [uploadFilePath "s1" "malware.glb" "u1"],
        .error (.securityViolation d)) :=
  save_upload_failure_leaves_no_residual.1 (fun _ => "application/octet-stream")
    [] "malware.glb" "s1" "u1" mzBytes (by decide) (by decide) (by decide)
    (by decide)

/-- MIME oracle returning the OBJ model type, as the sniffer does for
plain OBJ text. -/
def objSniff : List Nat → String := fun _ => "model/obj"

/-- Bytes of the benign OBJ payload used in the repository's traversal
test. -/
def objBytes : List Nat := [118, 32, 48, 32, 48, 32, 48]

/-- C5 failing-input evaluation: a filename containing dot-dot
components is not rejected at all: save_upload strips the directories
with basename, writes the file and admits the upload; a filename with an
embedded NUL byte passes the extension check, the file is written, and
only the scan that runs after the write rejects it.  Both contradict
rejection before any bytes are written. -/
theorem traversal_and_nul_not_rejected_before_write :
    save_upload objSniff [] "../../etc/passwd.obj" "s1" objBytes "u1" =
      (["./uploads/s1/u1_passwd.obj"], ["./uploads/s1/u1_passwd.obj"],
        .ok ("./uploads/s1/u1_passwd.obj", "../../etc/passwd.obj", 7)) ∧
    save_upload objSniff [] "model\x00.glb" "s1" objBytes "u1" =
      ([], ["./uploads/s1/u1_model\x00.glb"],
        .error (.securityViolation "Null byte detected in filename")) := by
  constructor
  · decide
  · decide

/-! Emergency disk reclaim (app/services/cleanup_service.py).  The
session table is a list of records; free disk space is an oracle over
the remaining sessions (DiskMonitor.get_disk_usage reads the host
filesystem); CleanupService.cleanup_session is modelled as succeeding,
i.e. it removes the session and its files. -/

/-- One row of the sessions table (app/db/models.py, Session), reduced
to the fields the reclaim loop reads. -/
structure SessRec where
  session_id : String
  last_accessed : Int
deriving DecidableEq, Repr

/-- Ascending last-accessed order used by
CleanupService.get_oldest_sessions (order_by last_accessed asc). -/
def sessOlder (a b : SessRec) : Prop :=
  a.last_accessed ≤ b.last_accessed

instance : DecidableRel sessOlder := fun a b =>
  inferInstanceAs (Decidable (a.last_accessed ≤ b.last_accessed))

instance : IsTotal SessRec sessOlder :=
  ⟨fun a b => Int.le_total a.last_accessed b.last_accessed⟩

instance : IsTrans SessRec sessOlder :=
  ⟨fun _ _ _ hab hbc => le_trans hab hbc⟩

/-- The session table ordered by last_accessed ascending, as the
get_oldest_sessions query orders it. -/
def sortSessions (db : List SessRec) : List SessRec :=
  List.insertionSort sessOlder db

/-- CleanupService.get_oldest_sessions: the limit oldest-by-last-access
rows. -/
def get_oldest_sessions (db : List SessRec) (limit : Nat) : List SessRec :=
  (sortSessions db).take limit

/-- The emergency_cleanup while-loop, acting on the still-ordered
remainder of the session table: stop as soon as the free-space goal is
met; otherwise, if no session remains, stop reporting the shortfall;
otherwise clean the batch of the 5 oldest sessions and re-check.
Returns the remaining sessions and the cleaned sessions in cleaning
order. -/
def emergencyLoop (free : List SessRec → ℚ) (target : ℚ)
    (remaining : List SessRec) : List SessRec × List SessRec :=
  if target ≤ free remaining then (remaining, [])
  else if h : remaining = [] then ([], [])
  else
    let r := emergencyLoop free target (remaining.drop 5)
    (r.1, remaining.take 5 ++ r.2)
termination_by remaining.length
decreasing_by
  cases remaining with
  | nil => exact absurd rfl h
  | cons a rest => simp; omega

/-- CleanupService.emergency_cleanup on a session table: run the loop on
the table in oldest-first order. -/
def emergency_cleanup (free : List SessRec → ℚ) (target : ℚ)
    (db : List SessRec) : List SessRec × List SessRec :=
  emergencyLoop free target (sortSessions db)

/-- Loop invariant: the cleaned prefix and the remainder recompose the
input, and at exit the goal is met or nothing remains. -/
theorem emergencyLoop_spec (free : List SessRec → ℚ) (target : ℚ) :
    ∀ (n : Nat) (remaining : List SessRec), remaining.length ≤ n →
      (emergencyLoop free target remaining).2 ++
          (emergencyLoop free target remaining).1 = remaining ∧
      (target ≤ free (emergencyLoop free target remaining).1 ∨
        (emergencyLoop free target remaining).1 = []) := by
  intro n
  induction n with
  | zero =>
    intro remaining hlen
    have hnil : remaining = [] := by
      cases remaining with
      | nil => rfl
      | cons a rest => simp at hlen
    subst hnil
    by_cases hfree : target ≤ free []
    · simp [emergencyLoop, hfree]
    · simp [emergencyLoop, hfree]
  | succ n ih =>
    intro remaining hlen
    by_cases hfree : target ≤ free remaining
    · rw [emergencyLoop.eq_def, if_pos hfree]
      exact ⟨by simp, Or.inl hfree⟩
    · cases remaining with
      | nil =>
        rw [emergencyLoop.eq_def, if_neg hfree, dif_pos rfl]
        exact ⟨by simp, Or.inr rfl⟩
      | cons a rest =>
        have hne : (a :: rest) ≠ ([] : List SessRec) := by simp
        have hdrop : ((a :: rest).drop 5).length ≤ n := by
          simp at hlen ⊢
          omega
        obtain ⟨hsplit, hexit⟩ := ih ((a :: rest).drop 5) hdrop
        rw [emergencyLoop.eq_def, if_neg hfree, dif_neg hne]
        dsimp only
        refine ⟨?_, hexit⟩
        rw [List.append_assoc, hsplit]
        exact List.take_append_drop 5 (a :: rest)

/-- C7: emergency reclaim cleans sessions strictly oldest-first (the
cleaned sessions, in cleaning order, are an ascending-by-last-accessed
prefix of the table's ascending order; every cleaned session is at least
as old as every surviving one, so no session is ever evicted while a
strictly older one is still present), and it stops exactly when the
free-space target is met or no sessions remain. -/
theorem emergency_cleanup_oldest_first (free : List SessRec → ℚ)
    (target : ℚ) (db : List SessRec) :
    (emergency_cleanup free target db).2 ++
        (emergency_cleanup free target db).1 = sortSessions db ∧
    List.Sorted sessOlder (emergency_cleanup free target db).2 ∧
    (∀ e ∈ (emergency_cleanup free target db).2,
      ∀ r ∈ (emergency_cleanup free target db).1, sessOlder e r) ∧
    (target ≤ free (emergency_cleanup free target db).1 ∨
      (emergency_cleanup free target db).1 = []) := by
  obtain ⟨hsplit, hexit⟩ := emergencyLoop_spec free target
    (sortSessions db).length (sortSessions db) le_rfl
  have hsorted : List.Sorted sessOlder (sortSessions db) :=
    List.sorted_insertionSort sessOlder db
  have hec : emergency_cleanup free target db =
      emergencyLoop free target (sortSessions db) := rfl
  rw [hec]
  have hp : List.Pairwise sessOlder
      ((emergencyLoop free target (sortSessions db)).2 ++
        (emergencyLoop free target (sortSessions db)).1) := by
    rw [hsplit]
    exact hsorted
  have hparts := List.pairwise_append.mp hp
  exact ⟨hsplit, hparts.1, hparts.2.2, hexit⟩

/-- Free-space oracle for the witness: each remaining session pins one
rational unit of space below 12. -/
def freeW : List SessRec → ℚ := fun l => 12 - l.length

/-- Session-table fixture for the witness. -/
def sessionsW : List SessRec :=
  [⟨"sa", 30⟩, ⟨"sb", 10⟩, ⟨"sc", 20⟩]

/-- Witness for C7 at a concrete table and oracle: the instantiated
conclusion of the reclaim theorem. -/
theorem emergency_cleanup_oldest_first_witness :
    (emergency_cleanup freeW 10 sessionsW).2 ++
        (emergency_cleanup freeW 10 sessionsW).1 = sortSessions sessionsW ∧
    List.Sorted sessOlder (emergency_cleanup freeW 10 sessionsW).2 ∧
    (∀ e ∈ (emergency_cleanup freeW 10 sessionsW).2,
      ∀ r ∈ (emergency_cleanup freeW 10 sessionsW).1, sessOlder e r) ∧
    (10 ≤ freeW (emergency_cleanup freeW 10 sessionsW).1 ∨
      (emergency_cleanup freeW 10 sessionsW).1 = []) :=
  emergency_cleanup_oldest_first freeW 10 sessionsW

/-! Skeleton generation task (app/tasks/skeleton_task.py).  The external
process is an oracle outcome: exit code, stdout lines, stderr text, and
whether the expected output artifact exists on disk after exit. -/

/-- Observable outcome of one external toolchain invocation. -/
structure ProcOutcome where
  returncode : Int
  stdoutLines : List String
  stderr : String
  outputExists : Bool
deriving DecidableEq, Repr

/-- UniRigException payload (app/utils/errors.py): message, code and
optional details.  Python's str(e) is the message alone, because the
constructor passes only self.message to Exception. -/
structure UniRigError where
  message : String
  error_code : String
  details : Option String
deriving DecidableEq, Repr

/-- SkeletonGenerationError: fixed message and code, stderr-derived
details. -/
def skeletonGenerationError (details : Option String) : UniRigError :=
  { message := "Skeleton generation failed"
    error_code := "PROCESSING_ERROR_SKELETON"
    details := details }

/-- str(e) on a UniRigException. -/
def strOfError (e : UniRigError) : String := e.message

/-- Run update_job, keeping the table unchanged on the impossible
missing-row branch (the task has already fetched the job). -/
def runUpdate (db : List JobRec) (job_id : String) (u : JobUpdateArgs)
    (now : Nat) : List JobRec :=
  match update_job db job_id u now with
  | .ok (d, _) => d
  | .error _ => db

/-- Lower-casing of a line (str.lower). -/
def lowerStr (s : String) : String :=
  String.mk (s.toList.map Char.toLower)

/-- Progress fraction inferred from one stdout line by the keyword
cascade in generate_skeleton. -/
def progressOfLine (line : String) : Option ℚ :=
  if strContainsSub line "Loading model" ||
      strContainsSub (lowerStr line) "loading model" then some (3/10)
  else if strContainsSub line "Processing mesh" ||
      strContainsSub (lowerStr line) "processing" then some (5/10)
  else if strContainsSub line "Generating skeleton" ||
      strContainsSub (lowerStr line) "generating" then some (7/10)
  else none

/-- Progress write performed for one stdout line (none recognised, no
write). -/
def applyProgressLine (db : List JobRec) (job_id : String) (now : Nat)
    (line : String) : List JobRec :=
  match progressOfLine line with
  | some p => runUpdate db job_id { progress := some p } now
  | none => db

/-- generate_skeleton (skeleton_task.py): mark the job processing in the
skeleton stage at progress 0.1, stream the stdout keywords into progress
writes, then settle the outcome: non-zero exit raises
SkeletonGenerationError carrying the captured stderr (or Unknown error)
as details; a missing output artifact raises it with a not-created
detail; either exception is caught and the job is updated to failed with
str(e) as the error message; otherwise the job is completed at progress
1.0 with the skeleton artifact path recorded. -/
def generate_skeleton (db : List JobRec) (job_id : String)
    (outcome : ProcOutcome) (output_file : String) (now : Nat) :
    List JobRec :=
  match getJob db job_id with
  | none => db
  | some _ =>
    let db1 := runUpdate db job_id startUpdateArgs now
    let db2 := outcome.stdoutLines.foldl
      (fun acc line => applyProgressLine acc job_id now line) db1
    let error_msg :=
      if outcome.stderr.isEmpty then "Unknown error" else outcome.stderr
    if outcome.returncode ≠ 0 then
      runUpdate db2 job_id
        { status := some .failed
          error_message := some (strOfError
            (skeletonGenerationError (some error_msg))) } now
    else if outcome.outputExists = false then
      runUpdate db2 job_id
        { status := some .failed
          error_message := some (strOfError (skeletonGenerationError
            (some ("Output file not created: " ++ output_file)))) } now
    else
      runUpdate db2 job_id
        { status := some .completed
          stage := some .skeleton
          progress := some 1
          skeleton_file := some output_file } now

/-- With the row present, runUpdate is the updateFirst rewrite. -/
theorem runUpdate_eq (db : List JobRec) (job_id : String)
    (u : JobUpdateArgs) (now : Nat) (j : JobRec)
    (h : getJob db job_id = some j) :
    runUpdate db job_id u now = updateFirst db job_id (applyUpdate now u) := by
  simp [runUpdate, update_job, h]

/-- One progress write keeps the job present. -/
theorem exists_getJob_applyProgressLine (db : List JobRec) (job_id : String)
    (now : Nat) (line : String) (j : JobRec)
    (h : getJob db job_id = some j) :
    ∃ j2, getJob (applyProgressLine db job_id now line) job_id = some j2 := by
  unfold applyProgressLine
  cases progressOfLine line with
  | none => exact ⟨j, h⟩
  | some p =>
    dsimp only
    rw [runUpdate_eq db job_id _ now j h]
    exact ⟨_, getJob_updateFirst db job_id _ j rfl h⟩

/-- The whole stdout stream keeps the job present. -/
theorem exists_getJob_foldl_progress (lines : List String) :
    ∀ (db : List JobRec) (job_id : String) (now : Nat) (j : JobRec),
      getJob db job_id = some j →
      ∃ j2, getJob (lines.foldl
        (fun acc line => applyProgressLine acc job_id now line) db) job_id =
          some j2 := by
  induction lines with
  | nil => intro db job_id now j h; exact ⟨j, h⟩
  | cons l rest ih =>
    intro db job_id now j h
    obtain ⟨j1, h1⟩ := exists_getJob_applyProgressLine db job_id now l j h
    exact ih _ job_id now j1 h1

/-- Counterexample for C8 as stated: the process exits with code 1 and
captured stderr boom, yet the job's stored error message is the
exception's fixed message text, not the captured stderr (the stderr only
reaches the exception's details field, which update_job never sees). -/
theorem skeleton_task_stderr_not_stored :
    (getJob (generate_skeleton [sampleJob] "j1"
        ⟨1, [], "boom", true⟩ "out.fbx" 2) "j1").map
      (fun j2 => (j2.status, j2.error_message)) =
      some (JobStatus.failed, some "Skeleton generation failed") ∧
    (some "Skeleton generation failed" : Option String) ≠ some "boom" := by
  exact ⟨by decide, by decide⟩

/-- Amended C8: a non-zero exit code, or a missing output artifact,
updates the job to failed with the stage exception's message text
(Skeleton generation failed) as its error message - the captured stderr
is carried only inside the exception's details; a zero exit code with
the artifact present updates the job to completed with progress 1.0 and
the artifact path stored in its result bundle. -/
theorem skeleton_task_failure_and_success (db : List JobRec)
    (job_id : String) (outcome : ProcOutcome) (output_file : String)
    (now : Nat) (j : JobRec) (h : getJob db job_id = some j) :
    ∃ j2, getJob (generate_skeleton db job_id outcome output_file now)
        job_id = some j2 ∧
      (outcome.returncode ≠ 0 →
        j2.status = .failed ∧
        j2.error_message = some "Skeleton generation failed") ∧
      (outcome.returncode = 0 → outcome.outputExists = false →
        j2.status = .failed ∧
        j2.error_message = some "Skeleton generation failed") ∧
      (outcome.returncode = 0 → outcome.outputExists = true →
        j2.status = .completed ∧ j2.progress = 1 ∧
        j2.skeleton_file = some output_file) := by
  have hdb1 : getJob (runUpdate db job_id startUpdateArgs now) job_id =
      some (applyUpdate now startUpdateArgs j) := by
    rw [runUpdate_eq db job_id _ now j h]
    exact getJob_updateFirst db job_id _ j rfl h
  obtain ⟨jm, hm⟩ := exists_getJob_foldl_progress outcome.stdoutLines _
    job_id now _ hdb1
  unfold generate_skeleton
  rw [h]
  dsimp only
  by_cases hrc : outcome.returncode ≠ 0
  · rw [if_pos hrc, runUpdate_eq _ _ _ _ jm hm]
    refine ⟨_, getJob_updateFirst _ _ _ jm rfl hm, ?_, ?_, ?_⟩
    · intro _
      exact ⟨rfl, rfl⟩
    · intro h0 _
      exact absurd h0 hrc
    · intro h0 _
      exact absurd h0 hrc
  · rw [if_neg hrc]
    by_cases hout : outcome.outputExists = false
    · rw [if_pos hout, runUpdate_eq _ _ _ _ jm hm]
      refine ⟨_, getJob_updateFirst _ _ _ jm rfl hm, ?_, ?_, ?_⟩
      · intro hcontra
        exact absurd hcontra hrc
      · intro _ _
        exact ⟨rfl, rfl⟩
      · intro _ htrue
        rw [hout] at htrue
        cases htrue
    · rw [if_neg hout, runUpdate_eq _ _ _ _ jm hm]
      refine ⟨_, getJob_updateFirst _ _ _ jm rfl hm, ?_, ?_, ?_⟩
      · intro hcontra
        exact absurd hcontra hrc
      · intro _ hf
        exact absurd hf hout
      · intro _ _
        refine ⟨rfl, ?_, rfl⟩
        simp [applyUpdate]

/-- Successful toolchain outcome used by the witness. -/
def okOutcome : ProcOutcome := ⟨0, [], "", true⟩

/-- Witness for the amended C8 at a concrete run: zero exit with the
artifact present completes the job at progress 1.0 and stores the
artifact path. -/
theorem skeleton_task_failure_and_success_witness :
    ∃ j2, getJob (generate_skeleton [sampleJob] "j1" okOutcome
        "out.fbx" 2) "j1" = some j2 ∧
      (okOutcome.returncode ≠ 0 →
        j2.status = .failed ∧
        j2.error_message = some "Skeleton generation failed") ∧
      (okOutcome.returncode = 0 → okOutcome.outputExists = false →
        j2.status = .failed ∧
        j2.error_message = some "Skeleton generation failed") ∧
      (okOutcome.returncode = 0 → okOutcome.outputExists = true →
        j2.status = .completed ∧ j2.progress = 1 ∧
        j2.skeleton_file = some "out.fbx") :=
  skeleton_task_failure_and_success [sampleJob] "j1" okOutcome "out.fbx" 2
    sampleJob (by decide)

end UniRig
